import Mathlib

/-!
Shallow embedding of the meteor-dodge simulation core (src/src/lib.rs).
`f64` values are modelled as exact rationals (`ℚ`); the 64-bit xorshift
state is a `Nat` reduced mod `2 ^ 64` where the Rust code wraps.
Rendering fields (`ctx`, `last_t`) and DOM glue are outside the simulation
core and are not modelled.
-/

namespace MeteorDodge

/-- `struct Rect { x, y, w, h: f64 }`. -/
structure Rect where
  x : ℚ
  y : ℚ
  w : ℚ
  h : ℚ
  deriving DecidableEq

/-- `Rect::intersects`: open-interval AABB overlap test. -/
def Rect.intersects (a o : Rect) : Bool :=
  decide (a.x < o.x + o.w) && decide (a.x + a.w > o.x) &&
  decide (a.y < o.y + o.h) && decide (a.y + a.h > o.y)

/-- `struct Meteor { r: Rect, vy: f64 }`. -/
structure Meteor where
  r : Rect
  vy : ℚ
  deriving DecidableEq

/-- `struct Input { left: bool, right: bool }`. -/
structure Input where
  left : Bool
  right : Bool
  deriving DecidableEq

/-- `f64::clamp(lo, hi)` in the non-panicking case (`lo ≤ hi`). -/
def clampQ (v lo hi : ℚ) : ℚ :=
  if v < lo then lo else if v > hi then hi else v

/-- One update of the global xorshift state:
`SEED ^= SEED << 7; SEED ^= SEED >> 9; SEED ^= SEED << 8` on `u64`. -/
def xorshiftStep (s : Nat) : Nat :=
  let a := (s ^^^ (s <<< 7)) % 2 ^ 64
  let b := a ^^^ (a >>> 9)
  (b ^^^ (b <<< 8)) % 2 ^ 64

/-- `rand_f64`: steps the seed, then returns `(SEED & 0xFFFF_FFFF) / u32::MAX`
together with the new seed. -/
def rand_f64 (s : Nat) : ℚ × Nat :=
  let t := xorshiftStep s
  (((t % 2 ^ 32 : ℕ) : ℚ) / 4294967295, t)

/-- `rand_between(a, b) = a + (b - a) * rand_f64()`. -/
def rand_between (a b : ℚ) (s : Nat) : ℚ × Nat :=
  let p := rand_f64 s
  (a + (b - a) * p.1, p.2)

/-- The spawn-timer reset expression at src/lib.rs:84:
`(0.8_f64.max(1.2 - score * 0.001)).max(0.15)`. -/
def spawnInterval (score : ℚ) : ℚ :=
  max (max 0.8 (1.2 - score * 0.001)) 0.15

/-- The difficulty expression at src/lib.rs:101: `120.0 + score * 0.6`. -/
def fallSpeedBase (score : ℚ) : ℚ :=
  120 + score * 0.6

/-- The meteor built in the spawn branch (src/lib.rs:85-88): three
sequential `rand_between` calls for x, size and vy. -/
def spawnedMeteor (width speed : ℚ) (seed : Nat) : Meteor :=
  let p1 := rand_between 0 (width - 14) seed
  let p2 := rand_between 10 24 p1.2
  let p3 := rand_between speed (speed + 160) p2.2
  { r := { x := p1.1, y := -p2.1, w := p2.1, h := p2.1 }, vy := p3.1 }

/-- The seed after the three `rand_between` calls of one spawn. -/
def spawnSeed3 (seed : Nat) : Nat :=
  xorshiftStep (xorshiftStep (xorshiftStep seed))

/-- The spawn block of `Game::update` (src/lib.rs:82-89): decrement the
timer by `dt`; if it is `≤ 0`, reset it to the interval for the current
score and append one freshly sampled meteor.  Returns
`(new timer, new meteor list, new seed)`. -/
def spawnStep (width score speed timer : ℚ) (meteors : List Meteor)
    (seed : Nat) (dt : ℚ) : ℚ × List Meteor × Nat :=
  let t := timer - dt
  if t ≤ 0 then
    (spawnInterval score, meteors ++ [spawnedMeteor width speed seed], spawnSeed3 seed)
  else
    (t, meteors, seed)

/-- The simulation fields of `struct Game` (canvas context and wall-clock
timestamp omitted; the global `SEED` is carried as a field). -/
structure Game where
  width : ℚ
  height : ℚ
  player : Rect
  meteors : List Meteor
  spawn_timer : ℚ
  score : ℚ
  speed : ℚ
  input : Input
  over : Bool
  seed : Nat
  deriving DecidableEq

/-- `Game::new` (simulation fields). -/
def Game.new (display_width display_height : ℚ) (seed : Nat) : Game :=
  { width := display_width
    height := display_height
    player := { x := display_width * 0.5 - 15, y := display_height - 40, w := 30, h := 20 }
    meteors := []
    spawn_timer := 0
    score := 0
    speed := 120
    input := { left := false, right := false }
    over := false
    seed := seed }

/-- `Game::reset`: recenter the player, clear meteors, zero the timer and
score, restore the base speed, return to the playing phase.  Width,
height, input and the RNG seed are untouched. -/
def Game.reset (g : Game) : Game :=
  { g with
    player := { g.player with x := g.width * 0.5 - 15 }
    meteors := []
    spawn_timer := 0
    score := 0
    speed := 120
    over := false }

/-- `Game::update(dt)`: early-out when over; move and clamp the player;
run the spawn block; advance meteors; collision check against the moved
player; prune meteors past `height + 60`; update score and speed. -/
def Game.update (g : Game) (dt : ℚ) : Game :=
  if g.over then g
  else
    let px0 := if g.input.left then g.player.x - 220 * dt else g.player.x
    let px1 := if g.input.right then px0 + 220 * dt else px0
    let player1 : Rect :=
      { x := clampQ px1 0 (g.width - g.player.w), y := g.player.y,
        w := g.player.w, h := g.player.h }
    let sres := spawnStep g.width g.score g.speed g.spawn_timer g.meteors g.seed dt
    let meteors2 := sres.2.1.map fun m =>
      { r := { x := m.r.x, y := m.r.y + m.vy * dt, w := m.r.w, h := m.r.h },
        vy := m.vy }
    let over1 := meteors2.any fun m => m.r.intersects player1
    let meteors3 := meteors2.filter fun m => decide (m.r.y < g.height + 60)
    let score1 := g.score + dt * 100
    { width := g.width, height := g.height, player := player1,
      meteors := meteors3, spawn_timer := sres.1, score := score1,
      speed := fallSpeedBase score1, input := g.input, over := over1,
      seed := sres.2.2 }

/-- Overwrite the held-key record (done by the external input collaborator
between frames). -/
def Game.setInput (g : Game) (inp : Input) : Game :=
  { g with input := inp }

/-- A sequence of frames: before each `update` the input collaborator may
have rewritten the held keys. -/
def advanceSeq (g : Game) (l : List (ℚ × Input)) : Game :=
  l.foldl (fun st p => (st.setInput p.2).update p.1) g

/-- Decidable form of the pruning invariant: every meteor is above `bound`. -/
def belowBound (l : List Meteor) (bound : ℚ) : Bool :=
  l.all fun m => decide (m.r.y < bound)

/-! ### Helper lemmas -/

/-- The value produced by `rand_f64` lies in the closed interval `[0, 1]`. -/
lemma rand_f64_mem (s : Nat) : 0 ≤ (rand_f64 s).1 ∧ (rand_f64 s).1 ≤ 1 := by
  simp only [rand_f64]
  constructor
  · exact div_nonneg (Nat.cast_nonneg _) (by norm_num)
  · rw [div_le_one (by norm_num)]
    have hlt : xorshiftStep s % 2 ^ 32 < 2 ^ 32 := Nat.mod_lt _ (by norm_num)
    have hle : xorshiftStep s % 2 ^ 32 ≤ 4294967295 := by omega
    exact_mod_cast hle

/-- `update` is the identity on a game-over state. -/
lemma update_of_over (g : Game) (dt : ℚ) (h : g.over = true) : g.update dt = g := by
  simp [Game.update, h]

lemma update_width (g : Game) (dt : ℚ) : (g.update dt).width = g.width := by
  cases h : g.over <;> simp [Game.update, h]

lemma update_player_w (g : Game) (dt : ℚ) : (g.update dt).player.w = g.player.w := by
  cases h : g.over <;> simp [Game.update, h]

lemma update_player_x (g : Game) (dt : ℚ) (h : g.over = false) :
    (g.update dt).player.x =
      clampQ (if g.input.right
                then (if g.input.left then g.player.x - 220 * dt else g.player.x) + 220 * dt
                else (if g.input.left then g.player.x - 220 * dt else g.player.x))
        0 (g.width - g.player.w) := by
  simp [Game.update, h]

lemma update_meteors (g : Game) (dt : ℚ) (h : g.over = false) :
    (g.update dt).meteors =
      ((spawnStep g.width g.score g.speed g.spawn_timer g.meteors g.seed dt).2.1.map fun m =>
          { r := { x := m.r.x, y := m.r.y + m.vy * dt, w := m.r.w, h := m.r.h },
            vy := m.vy }).filter fun m => decide (m.r.y < g.height + 60) := by
  simp [Game.update, h]

/-- `clampQ` lands in `[lo, hi]` whenever `lo ≤ hi`. -/
lemma clampQ_mem (v lo hi : ℚ) (h : lo ≤ hi) :
    lo ≤ clampQ v lo hi ∧ clampQ v lo hi ≤ hi := by
  unfold clampQ
  split_ifs with h1 h2 <;> constructor <;> linarith

/-- The player-box invariant carried through every frame. -/
def PlayerInv (g : Game) : Prop :=
  g.player.w = 30 ∧ 30 ≤ g.width ∧ 0 ≤ g.player.x ∧ g.player.x ≤ g.width - g.player.w

lemma update_playerInv (g : Game) (dt : ℚ) (h : PlayerInv g) : PlayerInv (g.update dt) := by
  obtain ⟨hw, hwd, _, _⟩ := h
  cases hov : g.over with
  | true => rw [update_of_over g dt hov]; exact ⟨hw, hwd, by assumption, by assumption⟩
  | false =>
    have hlohi : (0 : ℚ) ≤ g.width - g.player.w := by rw [hw]; linarith
    have hb := clampQ_mem (if g.input.right
        then (if g.input.left then g.player.x - 220 * dt else g.player.x) + 220 * dt
        else (if g.input.left then g.player.x - 220 * dt else g.player.x))
      0 (g.width - g.player.w) hlohi
    refine ⟨by rw [update_player_w, hw], by rw [update_width]; exact hwd, ?_, ?_⟩
    · rw [update_player_x g dt hov]; exact hb.1
    · rw [update_player_x g dt hov, update_width, update_player_w]; exact hb.2

lemma setInput_playerInv (g : Game) (inp : Input) (h : PlayerInv g) :
    PlayerInv (g.setInput inp) := by
  simpa [Game.setInput, PlayerInv] using h

lemma advanceSeq_playerInv (l : List (ℚ × Input)) (g : Game) (h : PlayerInv g) :
    PlayerInv (advanceSeq g l) := by
  induction l generalizing g with
  | nil => exact h
  | cons p l ih =>
    have hstep : advanceSeq g (p :: l) = advanceSeq ((g.setInput p.2).update p.1) l := rfl
    rw [hstep]
    exact ih _ (update_playerInv _ _ (setInput_playerInv _ _ h))

lemma setInput_width (g : Game) (inp : Input) : (g.setInput inp).width = g.width := rfl

lemma advanceSeq_width (l : List (ℚ × Input)) (g : Game) :
    (advanceSeq g l).width = g.width := by
  induction l generalizing g with
  | nil => rfl
  | cons p l ih =>
    have hstep : advanceSeq g (p :: l) = advanceSeq ((g.setInput p.2).update p.1) l := rfl
    rw [hstep, ih, update_width, setInput_width]

lemma new_playerInv (w h : ℚ) (sd : Nat) (hw : 30 ≤ w) : PlayerInv (Game.new w h sd) := by
  refine ⟨rfl, hw, ?_, ?_⟩ <;> simp only [Game.new] <;> · norm_num; linarith

/-! ### Concrete states used by counterexamples and witnesses -/

/-- A fresh 400×600 game whose seed sits 51 `rand_f64` calls (17 spawns)
after the source's initial seed `0x1234_5678_90ab_cdef`. -/
def g2ex : Game :=
  { width := 400, height := 600,
    player := { x := 0, y := 560, w := 30, h := 20 },
    meteors := [], spawn_timer := 0, score := 0, speed := 120,
    input := { left := false, right := false }, over := false,
    seed := 8762182142303975972 }

/-- The spec's collision scenario: a zero-speed meteor resting just above
the player, with the spawn timer held high so no spawn interferes. -/
def g4ex : Game :=
  { width := 400, height := 600,
    player := { x := 185, y := 560, w := 30, h := 20 },
    meteors := [{ r := { x := 185, y := 555, w := 20, h := 20 }, vy := 0 }],
    spawn_timer := 5, score := 0, speed := 120,
    input := { left := false, right := false }, over := false,
    seed := 1 }

/-- A game-over state with a pending meteor and held keys. -/
def g5ex : Game :=
  { width := 400, height := 600,
    player := { x := 10, y := 560, w := 30, h := 20 },
    meteors := [{ r := { x := 50, y := 100, w := 12, h := 12 }, vy := 150 }],
    spawn_timer := 0.4, score := 250, speed := 270,
    input := { left := true, right := false }, over := true,
    seed := 99 }

/-- A playing state with one meteor about to cross the pruning line. -/
def g9ex : Game :=
  { width := 400, height := 600,
    player := { x := 185, y := 560, w := 30, h := 20 },
    meteors := [{ r := { x := 50, y := 640, w := 12, h := 12 }, vy := 100 }],
    spawn_timer := 5, score := 0, speed := 120,
    input := { left := false, right := false }, over := false,
    seed := 1 }

/-! ### Claim theorems -/

/-- C1 (counterexample): the claim says `spawnInterval 1050 = 0.15`; the
expression at src/lib.rs:84 in fact yields `0.8` there, because the `0.8`
bound is taken before the `0.15` bound and dominates it. -/
theorem c1_counterexample : spawnInterval 1050 = 0.8 ∧ ¬ spawnInterval 1050 = 0.15 := by
  constructor <;> norm_num [spawnInterval, max_def]

/-- C1 (amended): for every score ≥ 1050 the spawn interval equals `0.8`
seconds — the effective floor of the expression at src/lib.rs:84 is `0.8`,
not `0.15`. -/
theorem c1_amended_thm (s : ℚ) (h : 1050 ≤ s) : spawnInterval s = 0.8 := by
  have h1 : (1.2 : ℚ) - s * 0.001 ≤ 0.8 := by norm_num; linarith
  rw [spawnInterval, max_eq_left h1]
  norm_num [max_def]

/-- C1 witness: the amended statement at score 1050. -/
theorem c1_witness : (1050 : ℚ) ≤ 1050 ∧ spawnInterval 1050 = 0.8 :=
  ⟨le_refl 1050, c1_amended_thm 1050 (le_refl 1050)⟩

/-- C2 (counterexample): from a fresh playfield of width 400 with a seed
that occurs 51 RNG calls into the source's actual seed sequence, the very
update that spawns an object produces one with `x + w ≈ 403 > 400`:
the horizontal sample uses the fixed offset 14, not the object's size. -/
theorem c2_counterexample :
    ((g2ex.update (16 / 1000)).meteors.any fun m => decide ((400 : ℚ) < m.r.x + m.r.w)) = true := by
  have h1 : xorshiftStep 8762182142303975972 = 13057419428438921456 := by decide
  have h2 : xorshiftStep 13057419428438921456 = 12676100459463838116 := by decide
  have h3 : xorshiftStep 12676100459463838116 = 15727207177477247433 := by decide
  norm_num [g2ex, Game.update, spawnStep, spawnedMeteor, rand_between, rand_f64,
    spawnSeed3, clampQ, Rect.intersects, spawnInterval, fallSpeedBase, max_def,
    h1, h2, h3]

/-- C2 (amended): the spawn block samples the horizontal position in
`[0, width − 14]` — the fixed constant 14, not the sampled size — so a
spawned object satisfies `0 ≤ x ≤ width − 14` and, since its size is at
most 24, `x + w ≤ width + 10`; `x + w ≤ width` itself can fail. -/
theorem c2_amended_thm (w sc sp t : ℚ) (ms : List Meteor) (sd : Nat) (dt : ℚ)
    (hspawn : t - dt ≤ 0) (hw : 14 ≤ w) :
    (spawnStep w sc sp t ms sd dt).2.1 = ms ++ [spawnedMeteor w sp sd] ∧
    0 ≤ (spawnedMeteor w sp sd).r.x ∧
    (spawnedMeteor w sp sd).r.x ≤ w - 14 ∧
    (spawnedMeteor w sp sd).r.x + (spawnedMeteor w sp sd).r.w ≤ w + 10 := by
  have hr1 := rand_f64_mem sd
  have hr2 := rand_f64_mem (rand_f64 sd).2
  refine ⟨by simp [spawnStep, hspawn], ?_, ?_, ?_⟩ <;>
    simp only [spawnedMeteor, rand_between]
  · exact le_add_of_nonneg_right (mul_nonneg (by linarith) hr1.1)
  · have := mul_le_of_le_one_right (a := w - 14 - 0) (by linarith) hr1.2
    linarith
  · have hx := mul_le_of_le_one_right (a := w - 14 - 0) (by linarith) hr1.2
    have hs := mul_le_of_le_one_right (a := (24 : ℚ) - 10) (by norm_num) hr2.2
    linarith

/-- C2 witness: the amended statement at width 400, seed 1. -/
theorem c2_witness :
    (0 : ℚ) - 1 ≤ 0 ∧ (14 : ℚ) ≤ 400 ∧
    ((spawnStep 400 0 120 0 [] 1 1).2.1 = [] ++ [spawnedMeteor 400 120 1] ∧
     0 ≤ (spawnedMeteor 400 120 1).r.x ∧
     (spawnedMeteor 400 120 1).r.x ≤ 400 - 14 ∧
     (spawnedMeteor 400 120 1).r.x + (spawnedMeteor 400 120 1).r.w ≤ 400 + 10) :=
  ⟨by norm_num, by norm_num, c2_amended_thm 400 0 120 0 [] 1 1 (by norm_num) (by norm_num)⟩

/-- C3 (counterexample): at the generator state reached 2306325638 calls
after the source's initial seed, `rand_f64` returns exactly 1, not a value
below 1: the code divides the low 32 bits by `u32::MAX = 2^32 − 1`, which
is attained. -/
theorem c3_counterexample :
    (rand_f64 14108027798890323904).1 = 1 ∧ ¬ (rand_f64 14108027798890323904).1 < 1 := by
  have h : xorshiftStep 14108027798890323904 = 1811811282140004351 := by decide
  have h1 : (rand_f64 14108027798890323904).1 = 1 := by
    simp only [rand_f64, h]; norm_num
  exact ⟨h1, by rw [h1]; exact lt_irrefl 1⟩

/-- C3 (amended): for every generator state, `rand_f64` returns a value in
the closed interval `[0, 1]` (1 is attained when the stepped state's low
32 bits are all ones), and `rand_between a b` returns exactly
`a + (b − a) * rand_f64` with the same stepped state. -/
theorem c3_amended_thm (s : Nat) (a b : ℚ) :
    (0 ≤ (rand_f64 s).1 ∧ (rand_f64 s).1 ≤ 1) ∧
    rand_between a b s = (a + (b - a) * (rand_f64 s).1, (rand_f64 s).2) :=
  ⟨rand_f64_mem s, rfl⟩

/-- C4: on a frame that starts in the playing phase and ends in game over,
the score still advances by `dt * 100` and the speed is still recomputed
as `120 + score * 0.6` from the new score. -/
theorem c4_transition_frame_updates (g : Game) (dt : ℚ) (h : g.over = false)
    (hcol : (g.update dt).over = true) :
    (g.update dt).score = g.score + dt * 100 ∧
    (g.update dt).speed = fallSpeedBase (g.score + dt * 100) := by
  constructor <;> simp [Game.update, h]

/-- C4 witness: the spec's collision scenario transitions to game over and
still updates score and speed. -/
theorem c4_witness :
    g4ex.over = false ∧ (g4ex.update (16 / 1000)).over = true ∧
    ((g4ex.update (16 / 1000)).score = g4ex.score + (16 / 1000) * 100 ∧
     (g4ex.update (16 / 1000)).speed = fallSpeedBase (g4ex.score + (16 / 1000) * 100)) := by
  have hcol : (g4ex.update (16 / 1000)).over = true := by
    norm_num [g4ex, Game.update, spawnStep, clampQ, Rect.intersects]
  exact ⟨rfl, hcol, c4_transition_frame_updates g4ex (16 / 1000) rfl hcol⟩

/-- C5: once the game is over, `update` changes nothing — every field of
the state is returned unchanged, for any `dt`. -/
theorem c5_gameover_frozen (g : Game) (dt : ℚ) (h : g.over = true) : g.update dt = g :=
  update_of_over g dt h

/-- C5 witness: a concrete game-over state is fixed by `update`. -/
theorem c5_witness : g5ex.over = true ∧ g5ex.update 7 = g5ex :=
  ⟨rfl, c5_gameover_frozen g5ex 7 rfl⟩

/-- C6: along any sequence of frames with nonnegative `dt` and arbitrary
inputs, starting from a freshly constructed game on a playfield at least as
wide as the player box, the player's x stays in `[0, width − player.w]`. -/
theorem c6_clamp_invariant (w h : ℚ) (sd : Nat) (l : List (ℚ × Input))
    (hw : 30 ≤ w) (hdt : (l.all fun p => decide (0 ≤ p.1)) = true) :
    0 ≤ (advanceSeq (Game.new w h sd) l).player.x ∧
    (advanceSeq (Game.new w h sd) l).player.x ≤
      w - (advanceSeq (Game.new w h sd) l).player.w := by
  have hinv := advanceSeq_playerInv l (Game.new w h sd) (new_playerInv w h sd hw)
  obtain ⟨hpw, _, hx0, hx1⟩ := hinv
  have hwidth : (advanceSeq (Game.new w h sd) l).width = w := by
    rw [advanceSeq_width]; rfl
  rw [hwidth] at hx1
  exact ⟨hx0, hx1⟩

/-- C6 witness: a two-frame run with keys held. -/
theorem c6_witness :
    (30 : ℚ) ≤ 400 ∧
    (([((1 : ℚ) / 100, { left := true, right := false }),
       ((2 : ℚ) / 100, { left := false, right := true })] :
        List (ℚ × Input)).all fun p => decide (0 ≤ p.1)) = true ∧
    (0 ≤ (advanceSeq (Game.new 400 600 5)
        [((1 : ℚ) / 100, { left := true, right := false }),
         ((2 : ℚ) / 100, { left := false, right := true })]).player.x ∧
     (advanceSeq (Game.new 400 600 5)
        [((1 : ℚ) / 100, { left := true, right := false }),
         ((2 : ℚ) / 100, { left := false, right := true })]).player.x ≤
       400 - (advanceSeq (Game.new 400 600 5)
        [((1 : ℚ) / 100, { left := true, right := false }),
         ((2 : ℚ) / 100, { left := false, right := true })]).player.w) :=
  ⟨by norm_num, by norm_num,
   c6_clamp_invariant 400 600 5 _ (by norm_num) (by norm_num)⟩

/-- C7: the rectangle overlap test is exactly the open-interval formula of
the spec, is symmetric, and rejects rectangles that merely share an edge. -/
theorem c7_intersects_spec (a b : Rect) :
    (a.intersects b = true ↔
      (a.x < b.x + b.w ∧ a.x + a.w > b.x ∧ a.y < b.y + b.h ∧ a.y + a.h > b.y)) ∧
    a.intersects b = b.intersects a ∧
    Rect.intersects { x := 0, y := 0, w := 10, h := 10 }
      { x := 10, y := 0, w := 10, h := 10 } = false := by
  refine ⟨by simp [Rect.intersects, and_assoc], ?_, by norm_num [Rect.intersects]⟩
  simp only [Rect.intersects]
  simp [Bool.and_comm, Bool.and_left_comm, Bool.and_assoc]

/-- C8: the difficulty curves are monotone — the fall-speed base
(src/lib.rs:101) never decreases and the spawn interval (src/lib.rs:84)
never increases along growing scores. -/
theorem c8_monotone_difficulty (s1 s2 : ℚ) (h0 : 0 ≤ s1) (h12 : s1 < s2) :
    fallSpeedBase s1 ≤ fallSpeedBase s2 ∧ spawnInterval s2 ≤ spawnInterval s1 := by
  constructor
  · simp only [fallSpeedBase]
    norm_num
    linarith
  · simp only [spawnInterval]
    exact max_le_max (max_le_max le_rfl (by norm_num; linarith)) le_rfl

/-- C8 witness: the monotonicity statement at scores 0 and 1. -/
theorem c8_witness :
    (0 : ℚ) ≤ 0 ∧ (0 : ℚ) < 1 ∧
    (fallSpeedBase 0 ≤ fallSpeedBase 1 ∧ spawnInterval 1 ≤ spawnInterval 0) :=
  ⟨le_refl 0, by norm_num, c8_monotone_difficulty 0 1 (le_refl 0) (by norm_num)⟩

/-- C9: a frame that starts in the playing phase leaves no meteor at or
below `height + 60` (the prune runs after the collision check, so this
holds on the frame that transitions to game over as well); and any state
already satisfying the bound keeps satisfying it, covering game-over
frames where `update` is the identity. -/
theorem c9_pruned (g : Game) (dt : ℚ) :
    (g.over = false → belowBound (g.update dt).meteors (g.height + 60) = true) ∧
    (belowBound g.meteors (g.height + 60) = true →
      belowBound (g.update dt).meteors (g.height + 60) = true) := by
  have hplay : g.over = false → belowBound (g.update dt).meteors (g.height + 60) = true := by
    intro h
    rw [update_meteors g dt h]
    simp only [belowBound, List.all_eq_true, List.mem_filter, decide_eq_true_eq]
    exact fun m hm => by exact_mod_cast hm.2
  refine ⟨hplay, fun hinv => ?_⟩
  cases hov : g.over with
  | true => rw [update_of_over g dt hov]; exact hinv
  | false => exact hplay hov

/-- C9 witness: a meteor crossing the pruning line during the frame is
gone afterwards. -/
theorem c9_witness :
    g9ex.over = false ∧ belowBound (g9ex.update 1).meteors (g9ex.height + 60) = true :=
  ⟨rfl, (c9_pruned g9ex 1).1 rfl⟩

/-- C10: construction and reset both set the spawn countdown to exactly 0,
so on the first frame in the playing phase, for any nonnegative `dt`, the
scheduler fires: it appends exactly one meteor to the empty collection and
resets the countdown to `spawnInterval 0`. -/
theorem c10_first_frame_spawns (w h : ℚ) (sd : Nat) (g : Game) (dt : ℚ) (hdt : 0 ≤ dt) :
    (Game.new w h sd).spawn_timer = 0 ∧
    g.reset.spawn_timer = 0 ∧
    (spawnStep w 0 120 0 [] sd dt).2.1 = [spawnedMeteor w 120 sd] ∧
    ((Game.new w h sd).update dt).spawn_timer = spawnInterval 0 := by
  have hc : (0 : ℚ) - dt ≤ 0 := by linarith
  refine ⟨rfl, rfl, by simp [spawnStep, hc, hdt], ?_⟩
  simp [Game.update, Game.new, spawnStep, hc, hdt]

/-- C10 witness: a fresh 400×600 game with `dt = 1/100`. -/
theorem c10_witness :
    (0 : ℚ) ≤ 1 / 100 ∧
    ((Game.new 400 600 1).spawn_timer = 0 ∧
     g5ex.reset.spawn_timer = 0 ∧
     (spawnStep 400 0 120 0 [] 1 (1 / 100)).2.1 = [spawnedMeteor 400 120 1] ∧
     ((Game.new 400 600 1).update (1 / 100)).spawn_timer = spawnInterval 0) :=
  ⟨by norm_num, c10_first_frame_spawns 400 600 1 g5ex (1 / 100) (by norm_num)⟩

end MeteorDodge
